import Mathlib

/-!
# Verification of the ydownloader job-lifecycle core

A shallow embedding of the domain layer of the `ydownloader` repository:
the `Download` job record and its lifecycle operations (`src/domain/models.py`),
the `DownloadService` coordinator (`src/domain/download_service.py`), the
`URLValidator` (`src/domain/validators.py`) and the `HistoryEntry`
serialisation round-trip, together with theorems settling the spec claims.

Python conventions mapped to Lean:
* `datetime` timestamps are opaque `Nat` values supplied by the caller;
* a raised exception in a constructor is `Except.error`;
* a `dict` of string keys/values is an association list;
* callbacks (`on_progress`, `on_complete`, `on_error`) are recorded as an
  ordered event list rather than invoked.
-/

namespace YDownloader

/-- `DownloadFormat` enum from `src/domain/models.py`. -/
inductive DownloadFormat
  | VIDEO
  | AUDIO
  deriving DecidableEq, Repr

/-- `DownloadStatus` enum from `src/domain/models.py`. -/
inductive DownloadStatus
  | PENDING
  | CONNECTING
  | DOWNLOADING
  | PROCESSING
  | COMPLETED
  | CANCELLED
  | ERROR
  deriving DecidableEq, Repr

/-- The `Download` dataclass from `src/domain/models.py`: a mutable job
record. `started_at`/`completed_at` are opaque timestamps (`Nat`). -/
structure Download where
  url : String
  output_path : String
  format : DownloadFormat
  id : String
  status : DownloadStatus
  progress : Int
  title : Option String
  error_message : Option String
  started_at : Nat
  completed_at : Option Nat
  deriving DecidableEq, Repr

namespace Download

/-- Constructing a `Download`: `__post_init__` raises `ValueError` when
`progress` is outside `[0,100]` (`models.py` lines 63-66); modelled as
`Except.error`. -/
def mk_checked (url output_path : String) (format : DownloadFormat)
    (id : String) (status : DownloadStatus) (progress : Int)
    (title error_message : Option String) (started_at : Nat)
    (completed_at : Option Nat) : Except String Download :=
  if 0 ≤ progress ∧ progress ≤ 100 then
    .ok ⟨url, output_path, format, id, status, progress, title,
         error_message, started_at, completed_at⟩
  else
    .error ("Progress must be between 0 and 100, got " ++ toString progress)

/-- Python truthiness of an `Optional[str]`: `None` and `""` are falsy. -/
def strTruthy : Option String → Bool
  | none => false
  | some s => s ≠ ""

/-- `Download.update_progress` (`models.py` lines 68-80): clamps the percent
into `[0,100]`, overwrites the status, and updates the title only when the
supplied title is truthy. -/
def update_progress (d : Download) (percent : Int) (status : DownloadStatus)
    (title : Option String := none) : Download :=
  { d with
    progress := max 0 (min 100 percent)
    status := status
    title := if strTruthy title then title else d.title }

/-- `Download.mark_completed` (`models.py` lines 82-86). -/
def mark_completed (d : Download) (now : Nat) : Download :=
  { d with
    status := .COMPLETED
    progress := 100
    completed_at := some now }

/-- `Download.mark_error` (`models.py` lines 88-92). -/
def mark_error (d : Download) (message : String) (now : Nat) : Download :=
  { d with
    status := .ERROR
    error_message := some message
    completed_at := some now }

/-- `Download.mark_cancelled` (`models.py` lines 94-97). -/
def mark_cancelled (d : Download) (now : Nat) : Download :=
  { d with
    status := .CANCELLED
    completed_at := some now }

/-- `Download.is_active` property (`models.py` lines 99-107). -/
def is_active (d : Download) : Bool :=
  match d.status with
  | .PENDING | .CONNECTING | .DOWNLOADING | .PROCESSING => true
  | _ => false

/-- `Download.is_terminal` property (`models.py` lines 109-116). -/
def is_terminal (d : Download) : Bool :=
  match d.status with
  | .COMPLETED | .CANCELLED | .ERROR => true
  | _ => false

/-- The seven statuses partition into active and terminal. -/
theorem is_active_eq_not_terminal (d : Download) :
    d.is_active = !d.is_terminal := by
  cases d with
  | mk url op fmt id status progress title em sa ca =>
    cases status <;> rfl

end Download

/-! ## URL validation (`src/domain/validators.py`) -/

/-- `ValidationResult` dataclass from `src/domain/validators.py`. -/
structure ValidationResult where
  is_valid : Bool
  error_message : String := ""
  error_code : String := ""
  deriving DecidableEq, Repr

/-- Python `str.strip` whitespace (the ASCII subset relevant here). -/
def isPySpace (c : Char) : Bool :=
  c = ' ' ∨ c = '\t' ∨ c = '\n' ∨ c = '\r' ∨ c = '\x0b' ∨ c = '\x0c'

/-- Python `str.strip()`: drop whitespace from both ends. -/
def pyStrip (s : String) : String :=
  String.mk (((s.toList.dropWhile isPySpace).reverse.dropWhile isPySpace).reverse)

/-- Characters allowed after the first in a URI scheme
(`urllib.parse`: letters, digits, `+`, `-`, `.`). -/
def isSchemeChar (c : Char) : Bool :=
  c.isAlphanum ∨ c = '+' ∨ c = '-' ∨ c = '.'

/-- Split a character list at the first `:`; `none` when there is no colon. -/
def splitAtColon : List Char → Option (List Char × List Char)
  | [] => none
  | c :: cs =>
    if c = ':' then some ([], cs)
    else
      match splitAtColon cs with
      | some (a, b) => some (c :: a, b)
      | none => none

/-- `urllib.parse.urlparse` restricted to the two components the validator
reads: the (lower-cased) scheme and the netloc. The scheme is the prefix
before the first `:` when it is non-empty, starts with a letter and
consists of scheme characters; the netloc follows a leading `//` of the
remainder and extends to the first `/`, `?` or `#`. -/
def urlparseSchemeNetloc (s : String) : String × String :=
  let cs := s.toList
  let parts : List Char × List Char :=
    match splitAtColon cs with
    | some (a, b) =>
      match a with
      | [] => ([], cs)
      | c0 :: rest =>
        if c0.isAlpha ∧ (c0 :: rest).all isSchemeChar then
          ((c0 :: rest).map Char.toLower, b)
        else ([], cs)
    | none => ([], cs)
  let netloc : List Char :=
    match parts.2 with
    | '/' :: '/' :: r => r.takeWhile (fun c => ¬(c = '/' ∨ c = '?' ∨ c = '#'))
    | _ => []
  (String.mk parts.1, String.mk netloc)

/-- Availability of the yt-dlp extractor registry consulted by
`URLValidator._is_site_supported`: the import may fail, the query may
raise, or a matching predicate over extractors is available. -/
inductive Registry
  | unavailable
  | errors
  | available (supported : String → Bool)

namespace URLValidator

/-- `URLValidator._is_site_supported` (`validators.py` lines 93-122):
permissive (`true`) when the registry import fails or any error occurs,
otherwise whether some extractor matches the URL. -/
def is_site_supported (reg : Registry) (url : String) : Bool :=
  match reg with
  | .unavailable => true
  | .errors => true
  | .available supported => supported url

/-- `URLValidator.validate` (`validators.py` lines 33-91), with the
registry state made an explicit parameter. -/
def validate (reg : Registry) (url : String) : ValidationResult :=
  if url = "" ∨ pyStrip url = "" then
    { is_valid := false
      error_message := "Por favor ingresa una URL."
      error_code := "EMPTY_URL" }
  else
    let url := pyStrip url
    let parsed := urlparseSchemeNetloc url
    if ¬(parsed.1 = "http" ∨ parsed.1 = "https") then
      { is_valid := false
        error_message := "La URL ingresada no es válida. Por favor verifica e intenta de nuevo."
        error_code := "INVALID_FORMAT" }
    else if parsed.2 = "" then
      { is_valid := false
        error_message := "La URL ingresada no es válida. Por favor verifica e intenta de nuevo."
        error_code := "INVALID_FORMAT" }
    else if ¬ is_site_supported reg url then
      { is_valid := false
        error_message := "Este sitio no está soportado actualmente."
        error_code := "UNSUPPORTED_SITE" }
    else
      { is_valid := true }

end URLValidator

/-! ## History entries (`src/domain/models.py`, `HistoryEntry`) -/

/-- `HistoryEntry` dataclass: the serialisable snapshot of a terminal
download. All fields are strings. -/
structure HistoryEntry where
  id : String
  title : String
  output_path : String
  status : String
  format : String
  completed_at : String
  deriving DecidableEq, Repr

/-- String value of a `DownloadStatus` (`status.value`). -/
def DownloadStatus.value : DownloadStatus → String
  | .PENDING => "pending"
  | .CONNECTING => "connecting"
  | .DOWNLOADING => "downloading"
  | .PROCESSING => "processing"
  | .COMPLETED => "completed"
  | .CANCELLED => "cancelled"
  | .ERROR => "error"

/-- String value of a `DownloadFormat` (`format.value`). -/
def DownloadFormat.value : DownloadFormat → String
  | .VIDEO => "video"
  | DownloadFormat.AUDIO => "audio"

namespace HistoryEntry

/-- `HistoryEntry.from_download` (`models.py` lines 135-153); the
`isoformat` rendering of the timestamp is an opaque injection of `Nat`
into strings. -/
def from_download (d : Download) : HistoryEntry :=
  { id := d.id
    title := d.title.getD "Sin título"
    output_path := d.output_path
    status := d.status.value
    format := d.format.value
    completed_at := match d.completed_at with
      | some t => toString t
      | none => "" }

/-- `HistoryEntry.to_dict` (`models.py` lines 155-164): a JSON object with
exactly the six string fields, modelled as an association list. -/
def to_dict (e : HistoryEntry) : List (String × String) :=
  [("id", e.id), ("title", e.title), ("output_path", e.output_path),
   ("status", e.status), ("format", e.format), ("completed_at", e.completed_at)]

/-- Python `data[key]` over the association-list model of a dict:
`none` is a `KeyError`. -/
def dictGet (data : List (String × String)) (key : String) : Option String :=
  match data with
  | [] => none
  | (k, v) :: rest => if k = key then some v else dictGet rest key

/-- `HistoryEntry.from_dict` (`models.py` lines 166-176); a missing key is
a `KeyError`, hence `Option`. -/
def from_dict (data : List (String × String)) : Option HistoryEntry := do
  let id ← dictGet data "id"
  let title ← dictGet data "title"
  let output_path ← dictGet data "output_path"
  let status ← dictGet data "status"
  let format ← dictGet data "format"
  let completed_at ← dictGet data "completed_at"
  pure ⟨id, title, output_path, status, format, completed_at⟩

end HistoryEntry

/-! ## Coordinator (`src/domain/download_service.py`) -/

/-- One callback invocation observed by the caller of the coordinator:
`on_progress`, `on_complete` or `on_error`. -/
inductive Event
  | progress (percent : Int) (status : DownloadStatus) (title : Option String)
  | complete (d : Download)
  | error (message : String)
  deriving DecidableEq, Repr

/-- Number of `on_complete` invocations in an event list. -/
def countComplete : List Event → Nat
  | [] => 0
  | .complete _ :: rest => countComplete rest + 1
  | _ :: rest => countComplete rest

/-- Number of `on_error` invocations in an event list. -/
def countError : List Event → Nat
  | [] => 0
  | .error _ :: rest => countError rest + 1
  | _ :: rest => countError rest

/-- One `progress_info` dict passed by the engine to the coordinator's
internal `handle_progress` (`download_service.py` lines 179-188):
`percent` (default 0 applied at the dict boundary), optional `title`, and
whether the reported phase is post-processing. -/
structure ProgressInfo where
  percent : Int
  title : Option String
  processing : Bool
  deriving DecidableEq, Repr

/-- Outcome of the blocking engine call `self._downloader.download(...)`:
a resolved path, a `CancelledException`, or any other exception carrying a
diagnostic and an optional `user_message`. -/
inductive EngineResult
  | ok (path : String)
  | cancelled
  | failure (message : String) (user_message : Option String)
  deriving DecidableEq, Repr

/-- Behaviour of the configured history sink's `add`: `none` means no
sink is configured; `some none` a sink whose `add` returns; `some (some m)`
a sink whose `add` raises an exception with message `m`. -/
abbrev HistorySink := Option (Option String)

/-- The progress phase of `_execute_download`: each engine report is
applied to the record via `update_progress` and forwarded to
`on_progress` (`download_service.py` lines 179-196). -/
def runReports (d : Download) : List ProgressInfo → Download × List Event
  | [] => (d, [])
  | r :: rest =>
    let status : DownloadStatus := if r.processing then .PROCESSING else .DOWNLOADING
    let d1 := d.update_progress r.percent status r.title
    let res := runReports d1 rest
    (res.1, .progress r.percent status r.title :: res.2)

/-- `DownloadService._execute_download` (`download_service.py` lines
155-227): sets `CONNECTING`, relays the engine's progress reports, then
dispatches on the engine outcome. On success the resolved path is stored,
the record marked completed, and — when a history sink is configured —
`add` is called inside the same `try`, so a raise from it falls to the
generic handler which marks the record `ERROR` and fires `on_error`. A
`CancelledException` marks the record cancelled and fires `on_complete`.
Any other failure marks the record `ERROR` (preferring `user_message`)
and fires `on_error`. -/
def executeDownload (d : Download) (reports : List ProgressInfo)
    (result : EngineResult) (hist : HistorySink) (now : Nat) :
    Download × List Event :=
  let d0 := d.update_progress 0 .CONNECTING none
  let ev0 : Event := .progress 0 .CONNECTING none
  let d1 := (runReports d0 reports).1
  let evs1 := (runReports d0 reports).2
  match result with
  | .ok path =>
    let d2 := Download.mark_completed { d1 with output_path := path } now
    match hist with
    | some (some m) =>
      (d2.mark_error m now, ev0 :: evs1 ++ [.error m])
    | _ => (d2, ev0 :: evs1 ++ [.complete d2])
  | .cancelled =>
    let d2 := d1.mark_cancelled now
    (d2, ev0 :: evs1 ++ [.complete d2])
  | .failure message user_message =>
    let em := user_message.getD message
    (d1.mark_error em now, ev0 :: evs1 ++ [.error em])

/-- The coordinator's own mutable state: the current job slot
(`self._current_download`). -/
structure ServiceState where
  current : Option Download
  deriving DecidableEq, Repr

/-- Result of a `start_download` call, seen synchronously by the caller:
the returned record (or `none` on rejection), the `on_error` invocations
made synchronously, the coordinator state after the call, and whether a
background worker thread was spawned. -/
structure StartResult where
  returned : Option Download
  events : List Event
  state : ServiceState
  spawned : Bool
  deriving DecidableEq, Repr

/-- The admission-rejection message of `start_download`
(`download_service.py` line 118). -/
def admissionMessage : String :=
  "Ya hay una descarga en progreso. Cancela la actual para iniciar otra."

/-- The unwritable-folder message of `start_download`
(`download_service.py` lines 129-132). -/
def permissionMessage : String :=
  "No tienes permiso para guardar archivos en esta carpeta. Por favor selecciona otra carpeta."

/-- `DownloadService.start_download` (`download_service.py` lines 92-153),
up to the point where the background thread is spawned. The validator
verdict, the `can_write` probe, the fresh id and the clock are explicit
parameters. Rejection paths fire `on_error` once and leave the state
untouched; on acceptance a fresh `PENDING` record with the placeholder
output path becomes the current job and the worker is spawned. -/
def startDownload (st : ServiceState) (url : String) (output_folder : String)
    (format : DownloadFormat) (validation : ValidationResult)
    (writable : Bool) (freshId : String) (now : Nat) : StartResult :=
  let busy : Bool :=
    match st.current with
    | some d => d.is_active
    | none => false
  if busy then
    { returned := none, events := [.error admissionMessage], state := st, spawned := false }
  else if ¬ validation.is_valid then
    { returned := none, events := [.error validation.error_message], state := st, spawned := false }
  else if ¬ writable then
    { returned := none, events := [.error permissionMessage], state := st, spawned := false }
  else
    let d : Download :=
      { url := url
        output_path := output_folder ++ "/downloading"
        format := format
        id := freshId
        status := .PENDING
        progress := 0
        title := none
        error_message := none
        started_at := now
        completed_at := none }
    { returned := some d, events := [], state := { current := some d }, spawned := true }

/-- Result of a `cancel_download` call: the returned boolean, whether the
engine's `cancel()` was signalled, and the coordinator state afterwards. -/
structure CancelResult where
  result : Bool
  signalled : Bool
  state : ServiceState
  deriving DecidableEq, Repr

/-- `DownloadService.cancel_download` (`download_service.py` lines
229-251): `false` when there is no current job, the id mismatches, or the
current job is not active; otherwise signals the downloader's
cancellation event and returns `true` without touching the record. -/
def cancelDownload (st : ServiceState) (download_id : String) : CancelResult :=
  match st.current with
  | none => { result := false, signalled := false, state := st }
  | some d =>
    if d.id ≠ download_id then
      { result := false, signalled := false, state := st }
    else if ¬ d.is_active then
      { result := false, signalled := false, state := st }
    else
      { result := true, signalled := true, state := st }

/-- A concrete pending job record used as a test vehicle. -/
def sampleDownload : Download :=
  { url := "https://x.com/a"
    output_path := "/out/downloading"
    format := .VIDEO
    id := "id-1"
    status := .PENDING
    progress := 0
    title := none
    error_message := none
    started_at := 0
    completed_at := none }

/-! ## Helper lemmas -/

theorem countComplete_append (a b : List Event) :
    countComplete (a ++ b) = countComplete a + countComplete b := by
  induction a with
  | nil => simp [countComplete]
  | cons e rest ih =>
    cases e <;> simp [countComplete, ih, Nat.add_right_comm]

theorem countError_append (a b : List Event) :
    countError (a ++ b) = countError a + countError b := by
  induction a with
  | nil => simp [countError]
  | cons e rest ih =>
    cases e <;> simp [countError, ih, Nat.add_right_comm]

/-- The progress-relay phase emits only progress events: no completion and
no error events. -/
theorem runReports_counts (rs : List ProgressInfo) (d : Download) :
    countComplete (runReports d rs).2 = 0 ∧ countError (runReports d rs).2 = 0 := by
  induction rs generalizing d with
  | nil => exact ⟨rfl, rfl⟩
  | cons r rest ih =>
    simpa [runReports, countComplete, countError] using ih _

/-- No completion event occurs among the relayed progress events. -/
theorem runReports_no_complete (rs : List ProgressInfo) (d e : Download) :
    Event.complete e ∉ (runReports d rs).2 := by
  induction rs generalizing d with
  | nil => simp [runReports]
  | cons r rest ih =>
    simp only [runReports, List.mem_cons]
    rintro (h | h)
    · exact Event.noConfusion h
    · exact ih _ h

/-! ## Claim theorems -/

/-- C1 counterexample: the claim says construction with progress `150`
clamps to `100` (and `-50` to `0`); in the code `__post_init__` instead
raises `ValueError`, so no record is produced at all. -/
theorem construction_rejects_out_of_range_cex :
    Download.mk_checked "https://x.com/a" "/out/v.mp4" .VIDEO "id-1" .PENDING 150
        none none 0 none
      = .error "Progress must be between 0 and 100, got 150"
    ∧ Download.mk_checked "https://x.com/a" "/out/v.mp4" .VIDEO "id-1" .PENDING (-50)
        none none 0 none
      = .error "Progress must be between 0 and 100, got -50" :=
  ⟨rfl, rfl⟩

/-- C1 (amended): `update_progress` clamps every integer percent into
`[0,100]` (`150 ↦ 100`, `-50 ↦ 0`); construction does not clamp but
validates — any successfully constructed record has progress in
`[0,100]`, and out-of-range construction raises. -/
theorem progress_clamped_update_checked_construction
    (d : Download) (p : Int) (s : DownloadStatus) (t : Option String)
    (url op : String) (fmt : DownloadFormat) (i : String) (st0 : DownloadStatus)
    (p0 : Int) (t0 e0 : Option String) (sa : Nat) (ca : Option Nat) (d' : Download)
    (hmk : Download.mk_checked url op fmt i st0 p0 t0 e0 sa ca = .ok d') :
    (0 ≤ (d.update_progress p s t).progress ∧ (d.update_progress p s t).progress ≤ 100)
    ∧ (d.update_progress 150 s t).progress = 100
    ∧ (d.update_progress (-50) s t).progress = 0
    ∧ (0 ≤ d'.progress ∧ d'.progress ≤ 100) := by
  refine ⟨⟨le_max_left _ _, max_le (by norm_num) (min_le_left _ _)⟩, ?_, ?_, ?_⟩
  · simp [Download.update_progress]
  · simp [Download.update_progress]
  · unfold Download.mk_checked at hmk
    split at hmk
    · rename_i h
      injection hmk with h'
      subst h'
      exact h
    · exact Except.noConfusion hmk

/-- C1 witness: the amended theorem applied at a concrete in-range
construction and the concrete clamping inputs. -/
theorem progress_clamped_update_checked_construction_witness :
    Download.mk_checked "u" "/o" .VIDEO "i" .PENDING 7 none none 0 none
      = .ok ⟨"u", "/o", .VIDEO, "i", .PENDING, 7, none, none, 0, none⟩
    ∧ ((0 ≤ (sampleDownload.update_progress 42 .DOWNLOADING none).progress
          ∧ (sampleDownload.update_progress 42 .DOWNLOADING none).progress ≤ 100)
       ∧ (sampleDownload.update_progress 150 .DOWNLOADING none).progress = 100
       ∧ (sampleDownload.update_progress (-50) .DOWNLOADING none).progress = 0
       ∧ (0 ≤ (⟨"u", "/o", .VIDEO, "i", .PENDING, 7, none, none, 0, none⟩ : Download).progress
          ∧ (⟨"u", "/o", .VIDEO, "i", .PENDING, 7, none, none, 0, none⟩ : Download).progress ≤ 100)) :=
  ⟨rfl,
   progress_clamped_update_checked_construction sampleDownload 42 .DOWNLOADING none
     "u" "/o" .VIDEO "i" .PENDING 7 none none 0 none
     ⟨"u", "/o", .VIDEO, "i", .PENDING, 7, none, none, 0, none⟩ rfl⟩

/-- C3 counterexample: after `mark_completed` the record is terminal, yet
a subsequent `update_progress` moves it to `DOWNLOADING`, a non-terminal
state — terminal states are not latched by the record's operations. -/
theorem terminal_state_not_latched_cex :
    (sampleDownload.mark_completed 0).is_terminal = true
    ∧ ((sampleDownload.mark_completed 0).update_progress 50 .DOWNLOADING none).status
        = .DOWNLOADING
    ∧ ((sampleDownload.mark_completed 0).update_progress 50 .DOWNLOADING none).status
        ≠ .COMPLETED := by
  exact ⟨rfl, rfl, by decide⟩

/-- C3 (amended): the record's operations overwrite the state
unconditionally — `update_progress` to its status argument and each
`mark_*` to its own terminal state — regardless of whether the previous
state was terminal, so a subsequent operation can leave a terminal
state. -/
theorem record_ops_overwrite_status (d : Download) (p : Int)
    (s : DownloadStatus) (t : Option String) (m : String) (now : Nat) :
    (d.update_progress p s t).status = s
    ∧ (d.mark_completed now).status = .COMPLETED
    ∧ (d.mark_cancelled now).status = .CANCELLED
    ∧ (d.mark_error m now).status = .ERROR :=
  ⟨rfl, rfl, rfl, rfl⟩

/-- C9: serialising a `HistoryEntry` to a dict and deserialising it
round-trips exactly, field for field. -/
theorem history_entry_roundtrip (e : HistoryEntry) :
    HistoryEntry.from_dict (HistoryEntry.to_dict e) = some e := by
  cases e
  rfl

/-- C10: `update_progress` changes only `progress`, `status` and `title`;
`title` keeps its old value when the supplied title is `none` or `""` and
takes the supplied value otherwise; `id`, `url`, `output_path`, `format`,
`error_message`, `started_at` and `completed_at` never change. -/
theorem update_progress_frame (d : Download) (p : Int) (s : DownloadStatus)
    (t : Option String) :
    (d.update_progress p s t).id = d.id
    ∧ (d.update_progress p s t).url = d.url
    ∧ (d.update_progress p s t).output_path = d.output_path
    ∧ (d.update_progress p s t).format = d.format
    ∧ (d.update_progress p s t).error_message = d.error_message
    ∧ (d.update_progress p s t).started_at = d.started_at
    ∧ (d.update_progress p s t).completed_at = d.completed_at
    ∧ (d.update_progress p s none).title = d.title
    ∧ (d.update_progress p s (some "")).title = d.title
    ∧ ∀ ttl : String,
        (d.update_progress p s (some ttl)).title
          = (if ttl = "" then d.title else some ttl) := by
  refine ⟨rfl, rfl, rfl, rfl, rfl, rfl, rfl, rfl, ?_, ?_⟩
  · simp [Download.update_progress, Download.strTruthy]
  · intro ttl
    by_cases h : ttl = "" <;> simp [Download.update_progress, Download.strTruthy, h]

/-- C2 counterexample: with the engine returning successfully and a
configured history sink whose `add` raises, the job ends `ERROR` (not
`COMPLETED`), `on_complete` is never invoked and `on_error` fires — the
coordinator does not swallow the history failure. -/
theorem history_failure_not_swallowed_cex :
    (executeDownload sampleDownload [] (.ok "/output/video.mp4")
        (some (some "boom")) 1).1.status = DownloadStatus.ERROR
    ∧ (executeDownload sampleDownload [] (.ok "/output/video.mp4")
        (some (some "boom")) 1).1.status ≠ DownloadStatus.COMPLETED
    ∧ countComplete (executeDownload sampleDownload [] (.ok "/output/video.mp4")
        (some (some "boom")) 1).2 = 0
    ∧ countError (executeDownload sampleDownload [] (.ok "/output/video.mp4")
        (some (some "boom")) 1).2 = 1 :=
  ⟨rfl, by decide, rfl, rfl⟩

/-- C2 (amended): when the engine call returns successfully but the
configured history sink's `add` raises, the failure is not swallowed: the
generic handler marks the job `ERROR` with the sink's message,
`error_sink` fires exactly once, and `completion_sink` is never invoked —
though the resolved path and `progress = 100` from the successful engine
call are retained on the record. -/
theorem history_failure_marks_error (d : Download)
    (reports : List ProgressInfo) (path m : String) (now : Nat) :
    (executeDownload d reports (.ok path) (some (some m)) now).1.status
        = DownloadStatus.ERROR
    ∧ (executeDownload d reports (.ok path) (some (some m)) now).1.error_message
        = some m
    ∧ countComplete (executeDownload d reports (.ok path) (some (some m)) now).2 = 0
    ∧ countError (executeDownload d reports (.ok path) (some (some m)) now).2 = 1
    ∧ (executeDownload d reports (.ok path) (some (some m)) now).1.progress = 100
    ∧ (executeDownload d reports (.ok path) (some (some m)) now).1.output_path
        = path := by
  refine ⟨rfl, rfl, ?_, ?_, rfl, rfl⟩
  · simp [executeDownload, countComplete, countComplete_append,
      (runReports_counts reports _).1]
  · simp [executeDownload, countError, countError_append,
      (runReports_counts reports _).2]

/-- C6: a cancellation outcome from the engine is routed to the
completion sink and never to the error sink: the record is marked
`CANCELLED` with `completed_at` (`ended_at`) set, `on_complete` fires
exactly once — carrying the final record — and `on_error` never. -/
theorem cancelled_routes_to_completion_sink (d : Download)
    (reports : List ProgressInfo) (hist : HistorySink) (now : Nat) :
    (executeDownload d reports .cancelled hist now).1.status
        = DownloadStatus.CANCELLED
    ∧ (executeDownload d reports .cancelled hist now).1.completed_at = some now
    ∧ countComplete (executeDownload d reports .cancelled hist now).2 = 1
    ∧ countError (executeDownload d reports .cancelled hist now).2 = 0
    ∧ Event.complete (executeDownload d reports .cancelled hist now).1
        ∈ (executeDownload d reports .cancelled hist now).2 := by
  refine ⟨rfl, rfl, ?_, ?_, ?_⟩
  · simp [executeDownload, countComplete, countComplete_append,
      (runReports_counts reports _).1]
  · simp [executeDownload, countError, countError_append,
      (runReports_counts reports _).2]
  · simp [executeDownload]

/-- C4: while the current job record is non-terminal, `start_download`
rejects synchronously: it returns no record, fires `on_error` exactly
once with the localized admission message, leaves the coordinator state
(and hence the existing record) unchanged, and spawns no background
worker. -/
theorem start_rejected_while_job_active (st : ServiceState) (d : Download)
    (url output_folder : String) (format : DownloadFormat)
    (validation : ValidationResult) (writable : Bool) (freshId : String)
    (now : Nat) (hcur : st.current = some d) (hterm : d.is_terminal = false) :
    (startDownload st url output_folder format validation writable freshId now).returned
        = none
    ∧ (startDownload st url output_folder format validation writable freshId now).events
        = [.error admissionMessage]
    ∧ (startDownload st url output_folder format validation writable freshId now).state
        = st
    ∧ (startDownload st url output_folder format validation writable freshId now).spawned
        = false := by
  have hact : d.is_active = true := by
    rw [Download.is_active_eq_not_terminal, hterm]
    rfl
  simp [startDownload, hcur, hact]

/-- C4 witness: the rejection theorem applied to a coordinator holding a
concrete `PENDING` (non-terminal) job. -/
theorem start_rejected_while_job_active_witness :
    (ServiceState.mk (some sampleDownload)).current = some sampleDownload
    ∧ sampleDownload.is_terminal = false
    ∧ ((startDownload ⟨some sampleDownload⟩ "https://y.com/b" "/out" DownloadFormat.AUDIO
          ⟨true, "", ""⟩ true "id-2" 5).returned = none
       ∧ (startDownload ⟨some sampleDownload⟩ "https://y.com/b" "/out" DownloadFormat.AUDIO
          ⟨true, "", ""⟩ true "id-2" 5).events = [.error admissionMessage]
       ∧ (startDownload ⟨some sampleDownload⟩ "https://y.com/b" "/out" DownloadFormat.AUDIO
          ⟨true, "", ""⟩ true "id-2" 5).state = ⟨some sampleDownload⟩
       ∧ (startDownload ⟨some sampleDownload⟩ "https://y.com/b" "/out" DownloadFormat.AUDIO
          ⟨true, "", ""⟩ true "id-2" 5).spawned = false) :=
  ⟨rfl, rfl,
   start_rejected_while_job_active ⟨some sampleDownload⟩ sampleDownload
     "https://y.com/b" "/out" DownloadFormat.AUDIO ⟨true, "", ""⟩ true "id-2" 5 rfl rfl⟩

/-- C5: `cancel_download` returns `false` exactly when there is no
current job, the given id differs from the current job's id, or the
current job is terminal; in every other case it signals the engine's
cancellation mechanism and returns `true`, never mutating the
coordinator state (and hence the current record). -/
theorem cancel_download_spec (st : ServiceState) (download_id : String) :
    ((cancelDownload st download_id).result = false ↔
      st.current = none
        ∨ ∃ d, st.current = some d
            ∧ (d.id ≠ download_id ∨ d.is_terminal = true))
    ∧ (cancelDownload st download_id).signalled
        = (cancelDownload st download_id).result
    ∧ (cancelDownload st download_id).state = st := by
  obtain ⟨cur⟩ := st
  cases cur with
  | none => simp [cancelDownload]
  | some d =>
    by_cases hid : d.id = download_id
    · cases hst : d.status <;>
        simp [cancelDownload, Download.is_active, Download.is_terminal, hid, hst]
    · simp [cancelDownload, hid]

/-- C7: the validator rejects empty or whitespace-only input with code
`EMPTY_URL` (the spec's `EMPTY`); rejects input whose parsed scheme is
outside `{http, https}` or whose host component is absent with code
`INVALID_FORMAT` (the spec's `MALFORMED`), e.g. `"ftp://x.com"`; and is
permissive when the extractor registry is unavailable or errors,
accepting e.g. `"https://x.com/a"`. -/
theorem validate_spec :
    (∀ (reg : Registry) (s : String), pyStrip s = "" →
        URLValidator.validate reg s
          = { is_valid := false
              error_message := "Por favor ingresa una URL."
              error_code := "EMPTY_URL" })
    ∧ (∀ (reg : Registry) (s : String), pyStrip s ≠ "" →
        (¬((urlparseSchemeNetloc (pyStrip s)).1 = "http"
            ∨ (urlparseSchemeNetloc (pyStrip s)).1 = "https")
          ∨ (urlparseSchemeNetloc (pyStrip s)).2 = "") →
        URLValidator.validate reg s
          = { is_valid := false
              error_message := "La URL ingresada no es válida. Por favor verifica e intenta de nuevo."
              error_code := "INVALID_FORMAT" })
    ∧ (∀ s : String, pyStrip s ≠ "" →
        ((urlparseSchemeNetloc (pyStrip s)).1 = "http"
          ∨ (urlparseSchemeNetloc (pyStrip s)).1 = "https") →
        (urlparseSchemeNetloc (pyStrip s)).2 ≠ "" →
        URLValidator.validate .unavailable s = { is_valid := true }
          ∧ URLValidator.validate .errors s = { is_valid := true })
    ∧ (∀ reg : Registry, URLValidator.validate reg "ftp://x.com"
          = { is_valid := false
              error_message := "La URL ingresada no es válida. Por favor verifica e intenta de nuevo."
              error_code := "INVALID_FORMAT" })
    ∧ URLValidator.validate .unavailable "https://x.com/a" = { is_valid := true }
    ∧ URLValidator.validate .errors "https://x.com/a" = { is_valid := true } := by
  refine ⟨?_, ?_, ?_, ?_, rfl, rfl⟩
  · intro reg s h
    simp [URLValidator.validate, h]
  · intro reg s h hbad
    have hs : ¬ s = "" := fun he => h (by rw [he]; rfl)
    rcases hbad with hb | hb
    · simp [URLValidator.validate, hs, h, hb]
    · by_cases hscheme : (urlparseSchemeNetloc (pyStrip s)).1 = "http"
        ∨ (urlparseSchemeNetloc (pyStrip s)).1 = "https"
      · simp [URLValidator.validate, hs, h, hscheme, hb]
      · simp [URLValidator.validate, hs, h, hscheme]
  · intro s h1 h2 h3
    have hs : ¬ s = "" := fun he => h1 (by rw [he]; rfl)
    constructor
    · simp [URLValidator.validate, h1, hs, h2, h3, URLValidator.is_site_supported]
    · simp [URLValidator.validate, h1, hs, h2, h3, URLValidator.is_site_supported]
  · intro reg
    rfl

/-- C7 witness: the validator theorem applied at the spec's concrete
scenario inputs `" "`, `"ftp://x.com"` and `"https://x.com/a"`. -/
theorem validate_spec_witness :
    (pyStrip " " = ""
      ∧ URLValidator.validate .errors " "
          = { is_valid := false
              error_message := "Por favor ingresa una URL."
              error_code := "EMPTY_URL" })
    ∧ (pyStrip "ftp://x.com" ≠ ""
      ∧ URLValidator.validate .errors "ftp://x.com"
          = { is_valid := false
              error_message := "La URL ingresada no es válida. Por favor verifica e intenta de nuevo."
              error_code := "INVALID_FORMAT" })
    ∧ (pyStrip "https://x.com/a" ≠ ""
      ∧ (URLValidator.validate .unavailable "https://x.com/a" = { is_valid := true }
         ∧ URLValidator.validate .errors "https://x.com/a" = { is_valid := true })) :=
  ⟨⟨rfl, validate_spec.1 .errors " " rfl⟩,
   ⟨by decide, validate_spec.2.1 .errors "ftp://x.com" (by decide) (by decide)⟩,
   ⟨by decide, validate_spec.2.2.1 "https://x.com/a" (by decide) (by decide) (by decide)⟩⟩

end YDownloader
